import Mathlib

/-!
Shallow embedding of `deploy_helper.py` (GT7-Telemetry-Pro deployment helper).

Python strings are modelled as `List Char` (`PyStr`); the filesystem tree the
script walks is a `FSEntry` tree; the paramiko SSH/SFTP library is modelled by
oracles (`SftpWorld`, `MainWorld`) giving the outcome of each remote call, and
the observable behaviour of a run is an event trace (`Event`) together with the
Python exception, if any, that escaped (`Option PyExc`).
-/

namespace DeployHelper

/-- A Python string: a sequence of characters. -/
abbrev PyStr := List Char

/-- The Python exceptions that matter to `deploy_helper.py`: `FileNotFoundError`
(caught by the directory-existence probe), `paramiko.AuthenticationException`,
`paramiko.SSHException` and any other `Exception`. -/
inductive PyExc where
  | fileNotFound
  | authentication
  | ssh (msg : PyStr)
  | other (msg : PyStr)
deriving DecidableEq

/-- `SERVER_IP = "10.70.23.152"` (deploy_helper.py line 14). -/
def SERVER_IP : PyStr := "10.70.23.152".toList

/-- `SERVER_USER = "missola"` (line 15). -/
def SERVER_USER : PyStr := "missola".toList

/-- `SERVER_PATH = "/home/missola/gt7-saas"` (line 16). -/
def SERVER_PATH : PyStr := "/home/missola/gt7-saas".toList

/-- `EXCLUDE_PATTERNS` (lines 19-27). -/
def EXCLUDE_PATTERNS : List PyStr :=
  ["node_modules".toList, ".git".toList, ".next".toList, "__pycache__".toList,
   "*.pyc".toList, ".env.local".toList, "deploy_helper.py".toList]

/-- `project_path = r"C:\Users\missola\CODE\GT7\GT7_SaaS"` (line 104). -/
def project_path : PyStr := "C:\\Users\\missola\\CODE\\GT7\\GT7_SaaS".toList

/-- Python `s.split(sep)` for a one-character separator (`os.sep` is a single
character): splits on every occurrence, keeping empty pieces, and yields `[""]`
on the empty string. -/
def splitChar (sep : Char) : PyStr → List PyStr
  | [] => [[]]
  | c :: rest =>
      match splitChar sep rest with
      | [] => [[]]
      | s :: ss => if c = sep then [] :: s :: ss else (c :: s) :: ss

/-- Python `pattern.startswith('*')`. -/
def startswith_star : PyStr → Bool
  | '*' :: _ => true
  | _ => false

/-- `should_exclude` (lines 57-65), after the `os.path.relpath` step: the body
loops over the patterns and reports exclusion when the pattern occurs among the
separator-split segments of the relative path (`pattern in rel_path.split(os.sep)`),
or when the pattern starts with `*` and the relative path ends with the rest of
the pattern (`rel_path.endswith(pattern[1:])`).  The global `EXCLUDE_PATTERNS`
is generalised to a parameter, as the claims quantify over rule sets. -/
def should_exclude (rel_path : PyStr) (sep : Char) (patterns : List PyStr) : Bool :=
  patterns.any fun pattern =>
    (splitChar sep rel_path).contains pattern ||
    (startswith_star pattern && List.isSuffixOf (pattern.drop 1) rel_path)

/-- The exclusion predicate as the specification words it (spec §3 and §8):
excluded iff some literal (non-wildcard) rule equals a path segment, or some
wildcard rule `*s` is such that the path ends with `s`.  Written from the
spec's words, to be compared with `should_exclude` from the source. -/
def spec_is_excluded (rel_path : PyStr) (sep : Char) (patterns : List PyStr) : Bool :=
  patterns.any fun pattern =>
    (!startswith_star pattern && (splitChar sep rel_path).contains pattern) ||
    (startswith_star pattern && List.isSuffixOf (pattern.drop 1) rel_path)

/-- Joining path components with the OS separator, as `os.path.relpath` renders
the root-relative path of a file reached by successive directory entries. -/
def joinChar (sep : Char) : List PyStr → PyStr
  | [] => []
  | [a] => a
  | a :: b :: rest => a ++ sep :: joinChar sep (b :: rest)

/-- A local filesystem entry as the walk sees it: `item.is_dir()` distinguishes
directories (with their `iterdir()` listing, in iteration order) from files. -/
inductive FSEntry where
  | file (name : PyStr)
  | dir (name : PyStr) (children : List FSEntry)

/-- `item.name`. -/
def FSEntry.name : FSEntry → PyStr
  | .file n => n
  | .dir n _ => n

/-- One observable call of a run.  Walk events record the local root-relative
path (as components) alongside the remote path string actually passed to the
SFTP call. -/
inductive Event where
  | statProbe (localRel : List PyStr) (remote : PyStr)
  | mkdirCall (localRel : List PyStr) (remote : PyStr)
  | skip (name : PyStr)
  | uploadAttempt (localRel : List PyStr) (remote : PyStr)
  | putOk (localRel : List PyStr) (remote : PyStr)
  | uploadError (name : PyStr)
  | connect (host user : PyStr)
  | sftpOpen
  | execCmd (cmd : PyStr)
  | sftpClose
  | clientClose
deriving DecidableEq

/-- The local root-relative path an event concerns, when it concerns one. -/
def eventLocal : Event → Option (List PyStr)
  | .statProbe q _ => some q
  | .mkdirCall q _ => some q
  | .uploadAttempt q _ => some q
  | .putOk q _ => some q
  | _ => none

/-- Events the tree walk can emit (no session events). -/
def isWalkEvent : Event → Bool
  | .statProbe _ _ => true
  | .mkdirCall _ _ => true
  | .skip _ => true
  | .uploadAttempt _ _ => true
  | .putOk _ _ => true
  | .uploadError _ => true
  | _ => false

/-- Oracle for the SFTP channel: the outcome of `sftp.stat`, `sftp.mkdir` and
`sftp.put` on each path (`none` = the call succeeds, `some e` = it raises `e`).
`put` is keyed by the local file's root-relative components together with the
remote destination string. -/
structure SftpWorld where
  statR : PyStr → Option PyExc
  mkdirR : PyStr → Option PyExc
  putR : List PyStr → PyStr → Option PyExc

/-- Lines 74-79 of `upload_directory`: `try: sftp.stat(remote_path)` — on
`FileNotFoundError` call `sftp.mkdir(remote_path)`; any other probe fault, and
any `mkdir` fault, propagates. -/
def ensureDir (w : SftpWorld) (localRel : List PyStr) (remote : PyStr) :
    List Event × Option PyExc :=
  match w.statR remote with
  | none => ([Event.statProbe localRel remote], none)
  | some PyExc.fileNotFound =>
      ([Event.statProbe localRel remote, Event.mkdirCall localRel remote], w.mkdirR remote)
  | some e => ([Event.statProbe localRel remote], some e)

/-- The `for item in local_path.iterdir()` loop of `upload_directory`
(lines 81-96), with the recursive call inlined for directory entries (the
recursive call first runs the lines 74-79 probe on the child's remote path,
then loops over the child's entries).  `rel` is the root-relative component
path of the current directory, `remotePath` its remote path; the result is the
trace of SFTP calls made and the exception, if any, that escaped the loop. -/
def walkItems (w : SftpWorld) (sep : Char) (patterns : List PyStr)
    (items : List FSEntry) (rel : List PyStr) (remotePath : PyStr) :
    List Event × Option PyExc :=
  match items with
  | [] => ([], none)
  | item :: rest =>
    let relStr := joinChar sep (rel ++ [item.name])
    if should_exclude relStr sep patterns then
      let rr := walkItems w sep patterns rest rel remotePath
      (Event.skip item.name :: rr.1, rr.2)
    else
      match item with
      | FSEntry.dir name children =>
        let remoteItem := remotePath ++ '/' :: name
        let e1 := ensureDir w (rel ++ [name]) remoteItem
        match e1.2 with
        | some exc => (e1.1, some exc)
        | none =>
          let rc := walkItems w sep patterns children (rel ++ [name]) remoteItem
          match rc.2 with
          | some exc => (e1.1 ++ rc.1, some exc)
          | none =>
            let rr := walkItems w sep patterns rest rel remotePath
            (e1.1 ++ rc.1 ++ rr.1, rr.2)
      | FSEntry.file name =>
        let remoteItem := remotePath ++ '/' :: name
        let rr := walkItems w sep patterns rest rel remotePath
        match w.putR (rel ++ [name]) remoteItem with
        | none =>
          (Event.uploadAttempt (rel ++ [name]) remoteItem ::
             Event.putOk (rel ++ [name]) remoteItem :: rr.1, rr.2)
        | some _ =>
          (Event.uploadAttempt (rel ++ [name]) remoteItem ::
             Event.uploadError name :: rr.1, rr.2)
termination_by sizeOf items
decreasing_by
  all_goals simp_wf
  all_goals omega

/-- `upload_directory(sftp, local, remote)` at the top level (lines 67-96):
probe/create the remote root, then loop over the root's entries. -/
def upload_directory (w : SftpWorld) (sep : Char) (patterns : List PyStr)
    (children : List FSEntry) (remotePath : PyStr) : List Event × Option PyExc :=
  let e1 := ensureDir w [] remotePath
  match e1.2 with
  | some exc => (e1.1, some exc)
  | none =>
    let rr := walkItems w sep patterns children [] remotePath
    (e1.1 ++ rr.1, rr.2)

/-- `get_password` (lines 29-33): the first command-line argument when present
(`sys.argv` includes the program name at index 0), else
`os.environ.get('SSH_PASSWORD', '')`. -/
def get_password (argv : List PyStr) (env : PyStr → Option PyStr) : PyStr :=
  if h : 1 < argv.length then argv[1]
  else (env "SSH_PASSWORD".toList).getD []

/-- Oracle for the whole run: outcomes of `client.connect`, `client.open_sftp`,
each `exec_command` (by command string, yielding stdout, stderr and the remote
exit status, or raising), the SFTP channel oracle, the local project tree and
the local OS path separator. -/
structure MainWorld where
  connectR : Option PyExc
  openSftpR : Option PyExc
  execR : PyStr → Except PyExc (PyStr × PyStr × Nat)
  sftp : SftpWorld
  tree : List FSEntry
  sep : Char

/-- `f"mkdir -p {SERVER_PATH}"` (line 118). -/
def mkdirCmd : PyStr := "mkdir -p ".toList ++ SERVER_PATH

/-- The docker compose command (line 131). -/
def docker_cmd : PyStr :=
  "cd ".toList ++ SERVER_PATH ++
    " && docker compose -f docker-compose.prod.yml up -d --build --remove-orphans".toList

/-- The verification command (line 145). -/
def dockerPsCmd : PyStr :=
  "docker ps --format \x27table \x7b\x7b.Names\x7d\x7d\t\x7b\x7b.Status\x7d\x7d\t\x7b\x7b.Ports\x7d\x7d\x27".toList

/-- The body of `main`'s `try:` block (lines 108-154): connect, open SFTP,
run the remote mkdir, upload the tree, run docker compose (its exit status is
only reported), run the verification listing, close the SFTP channel and the
client.  Each step's fault propagates to the exception component, ending the
trace at that point. -/
def tryBody (w : MainWorld) : List Event × Option PyExc :=
  let ev1 := [Event.connect SERVER_IP SERVER_USER]
  match w.connectR with
  | some e => (ev1, some e)
  | none =>
    let ev2 := ev1 ++ [Event.sftpOpen]
    match w.openSftpR with
    | some e => (ev2, some e)
    | none =>
      let ev3 := ev2 ++ [Event.execCmd mkdirCmd]
      match w.execR mkdirCmd with
      | Except.error e => (ev3, some e)
      | Except.ok _ =>
        let up := upload_directory w.sftp w.sep EXCLUDE_PATTERNS w.tree SERVER_PATH
        let ev4 := ev3 ++ up.1
        match up.2 with
        | some e => (ev4, some e)
        | none =>
          let ev5 := ev4 ++ [Event.execCmd docker_cmd]
          match w.execR docker_cmd with
          | Except.error e => (ev5, some e)
          | Except.ok _ =>
            let ev6 := ev5 ++ [Event.execCmd dockerPsCmd]
            match w.execR dockerPsCmd with
            | Except.error e => (ev6, some e)
            | Except.ok _ =>
              (ev6 ++ [Event.sftpClose, Event.clientClose], none)

/-- `main` (lines 98-164): obtain the password; `if not password:` report and
`sys.exit(1)` with no call made; otherwise run the `try:` body — reaching its
end exits `0`, while every handler (`AuthenticationException`, `SSHException`,
generic `Exception`) reports and exits `1`.  The result is the process exit
code and the trace of remote calls made. -/
def main (argv : List PyStr) (env : PyStr → Option PyStr) (w : MainWorld) :
    Nat × List Event :=
  let password := get_password argv env
  if password = [] then (1, [])
  else
    let body := tryBody w
    match body.2 with
    | none => (0, body.1)
    | some _ => (1, body.1)


theorem walkItems_nil (w : SftpWorld) (sep : Char) (patterns : List PyStr)
    (rel : List PyStr) (remotePath : PyStr) :
    walkItems w sep patterns [] rel remotePath = ([], none) := by
  simp [walkItems]

theorem walkItems_excluded (w : SftpWorld) (sep : Char) (patterns : List PyStr)
    (item : FSEntry) (rest : List FSEntry) (rel : List PyStr) (remotePath : PyStr)
    (h : should_exclude (joinChar sep (rel ++ [item.name])) sep patterns = true) :
    walkItems w sep patterns (item :: rest) rel remotePath =
      (Event.skip item.name :: (walkItems w sep patterns rest rel remotePath).1,
       (walkItems w sep patterns rest rel remotePath).2) := by
  rw [walkItems.eq_def]
  simp only [h, if_true]

theorem walkItems_dir_abort (w : SftpWorld) (sep : Char) (patterns : List PyStr)
    (name : PyStr) (children rest : List FSEntry) (rel : List PyStr) (remotePath : PyStr)
    (hnex : should_exclude (joinChar sep (rel ++ [name])) sep patterns = false)
    (exc : PyExc)
    (he1 : (ensureDir w (rel ++ [name]) (remotePath ++ '/' :: name)).2 = some exc) :
    walkItems w sep patterns (FSEntry.dir name children :: rest) rel remotePath =
      ((ensureDir w (rel ++ [name]) (remotePath ++ '/' :: name)).1, some exc) := by
  rw [walkItems.eq_def]
  simp only [FSEntry.name, hnex, Bool.false_eq_true, if_false, he1]

theorem walkItems_dir_childabort (w : SftpWorld) (sep : Char) (patterns : List PyStr)
    (name : PyStr) (children rest : List FSEntry) (rel : List PyStr) (remotePath : PyStr)
    (hnex : should_exclude (joinChar sep (rel ++ [name])) sep patterns = false)
    (he1 : (ensureDir w (rel ++ [name]) (remotePath ++ '/' :: name)).2 = none)
    (exc : PyExc)
    (hrc : (walkItems w sep patterns children (rel ++ [name]) (remotePath ++ '/' :: name)).2 = some exc) :
    walkItems w sep patterns (FSEntry.dir name children :: rest) rel remotePath =
      ((ensureDir w (rel ++ [name]) (remotePath ++ '/' :: name)).1 ++
        (walkItems w sep patterns children (rel ++ [name]) (remotePath ++ '/' :: name)).1,
       some exc) := by
  rw [walkItems.eq_def]
  simp only [FSEntry.name, hnex, Bool.false_eq_true, if_false, he1, hrc]

theorem walkItems_dir_ok (w : SftpWorld) (sep : Char) (patterns : List PyStr)
    (name : PyStr) (children rest : List FSEntry) (rel : List PyStr) (remotePath : PyStr)
    (hnex : should_exclude (joinChar sep (rel ++ [name])) sep patterns = false)
    (he1 : (ensureDir w (rel ++ [name]) (remotePath ++ '/' :: name)).2 = none)
    (hrc : (walkItems w sep patterns children (rel ++ [name]) (remotePath ++ '/' :: name)).2 = none) :
    walkItems w sep patterns (FSEntry.dir name children :: rest) rel remotePath =
      ((ensureDir w (rel ++ [name]) (remotePath ++ '/' :: name)).1 ++
        (walkItems w sep patterns children (rel ++ [name]) (remotePath ++ '/' :: name)).1 ++
        (walkItems w sep patterns rest rel remotePath).1,
       (walkItems w sep patterns rest rel remotePath).2) := by
  rw [walkItems.eq_def]
  simp only [FSEntry.name, hnex, Bool.false_eq_true, if_false, he1, hrc]

theorem walkItems_file_ok (w : SftpWorld) (sep : Char) (patterns : List PyStr)
    (name : PyStr) (rest : List FSEntry) (rel : List PyStr) (remotePath : PyStr)
    (hnex : should_exclude (joinChar sep (rel ++ [name])) sep patterns = false)
    (hput : w.putR (rel ++ [name]) (remotePath ++ '/' :: name) = none) :
    walkItems w sep patterns (FSEntry.file name :: rest) rel remotePath =
      (Event.uploadAttempt (rel ++ [name]) (remotePath ++ '/' :: name) ::
         Event.putOk (rel ++ [name]) (remotePath ++ '/' :: name) ::
         (walkItems w sep patterns rest rel remotePath).1,
       (walkItems w sep patterns rest rel remotePath).2) := by
  rw [walkItems.eq_def]
  simp only [FSEntry.name, hnex, Bool.false_eq_true, if_false, hput]

theorem walkItems_file_err (w : SftpWorld) (sep : Char) (patterns : List PyStr)
    (name : PyStr) (rest : List FSEntry) (rel : List PyStr) (remotePath : PyStr)
    (hnex : should_exclude (joinChar sep (rel ++ [name])) sep patterns = false)
    (exc : PyExc)
    (hput : w.putR (rel ++ [name]) (remotePath ++ '/' :: name) = some exc) :
    walkItems w sep patterns (FSEntry.file name :: rest) rel remotePath =
      (Event.uploadAttempt (rel ++ [name]) (remotePath ++ '/' :: name) ::
         Event.uploadError name ::
         (walkItems w sep patterns rest rel remotePath).1,
       (walkItems w sep patterns rest rel remotePath).2) := by
  rw [walkItems.eq_def]
  simp only [FSEntry.name, hnex, Bool.false_eq_true, if_false, hput]



theorem ensureDir_mem (w : SftpWorld) (q0 : List PyStr) (r0 : PyStr) (ev : Event)
    (h : ev ∈ (ensureDir w q0 r0).1) :
    ev = Event.statProbe q0 r0 ∨ ev = Event.mkdirCall q0 r0 := by
  unfold ensureDir at h
  rcases hs : w.statR r0 with _ | e
  · rw [hs] at h
    exact Or.inl (by simpa using h)
  · rw [hs] at h
    rcases e with _ | _ | m | m <;> simp_all

theorem H_extend (sep : Char) (patterns : List PyStr) (rel : List PyStr) (name : PyStr)
    (H : ∀ j, j < rel.length →
      should_exclude (joinChar sep (rel.take (j+1))) sep patterns = false)
    (hn : should_exclude (joinChar sep (rel ++ [name])) sep patterns = false) :
    ∀ j, j < (rel ++ [name]).length →
      should_exclude (joinChar sep ((rel ++ [name]).take (j+1))) sep patterns = false := by
  intro j hj
  rcases Nat.lt_or_ge j rel.length with hlt | hge
  · rw [List.take_append_of_le_length hlt]
    exact H j hlt
  · have hj' : j = rel.length := by
      simp only [List.length_append, List.length_singleton] at hj
      omega
    subst hj'
    rw [List.take_of_length_le (by simp)]
    exact hn

theorem eventLocal_rel (w : SftpWorld) (sep : Char) (patterns : List PyStr) :
    ∀ items rel remotePath,
      (∀ j, j < rel.length →
        should_exclude (joinChar sep (rel.take (j+1))) sep patterns = false) →
      ∀ ev ∈ (walkItems w sep patterns items rel remotePath).1,
        ∀ q, eventLocal ev = some q →
          (∃ t, q = rel ++ t) ∧
          ∀ j, j < q.length →
            should_exclude (joinChar sep (q.take (j+1))) sep patterns = false := by
  intro items rel remotePath
  induction items, rel, remotePath using walkItems.induct w sep patterns with
  | case1 rel remotePath =>
    intro _ ev hev
    rw [walkItems_nil] at hev
    simp at hev
  | case2 rel remotePath item rest relStr hexcl ih =>
    intro H ev hev q hq
    rw [walkItems_excluded w sep patterns item rest rel remotePath hexcl] at hev
    rcases List.mem_cons.1 hev with h | h
    · subst h; simp [eventLocal] at hq
    · exact ih H ev h q hq
  | case3 rel remotePath rest name children remoteItem e1 exc hexc relStr hnexcl =>
    intro H ev hev q hq
    rw [Bool.not_eq_true] at hnexcl
    rw [walkItems_dir_abort w sep patterns name children rest rel remotePath hnexcl exc hexc] at hev
    rcases ensureDir_mem w _ _ ev hev with h | h <;>
      (subst h; simp only [eventLocal, Option.some.injEq] at hq; subst hq;
       exact ⟨⟨[name], rfl⟩, H_extend sep patterns rel name H hnexcl⟩)
  | case4 rel remotePath rest name children remoteItem e1 he1 rc exc hexc relStr hnexcl ihc =>
    intro H ev hev q hq
    rw [Bool.not_eq_true] at hnexcl
    rw [walkItems_dir_childabort w sep patterns name children rest rel remotePath hnexcl he1 exc hexc] at hev
    rcases List.mem_append.1 hev with h | h
    · rcases ensureDir_mem w _ _ ev h with h | h <;>
        (subst h; simp only [eventLocal, Option.some.injEq] at hq; subst hq;
         exact ⟨⟨[name], rfl⟩, H_extend sep patterns rel name H hnexcl⟩)
    · have := ihc (H_extend sep patterns rel name H hnexcl) ev h q hq
      refine ⟨?_, this.2⟩
      rcases this.1 with ⟨t, ht⟩
      exact ⟨name :: t, by simpa using ht⟩
  | case5 rel remotePath rest name children remoteItem e1 he1 rc hrc relStr hnexcl ihc ihr =>
    intro H ev hev q hq
    rw [Bool.not_eq_true] at hnexcl
    rw [walkItems_dir_ok w sep patterns name children rest rel remotePath hnexcl he1 hrc] at hev
    rcases List.mem_append.1 hev with h | h
    · rcases List.mem_append.1 h with h | h
      · rcases ensureDir_mem w _ _ ev h with h | h <;>
          (subst h; simp only [eventLocal, Option.some.injEq] at hq; subst hq;
           exact ⟨⟨[name], rfl⟩, H_extend sep patterns rel name H hnexcl⟩)
      · have := ihc (H_extend sep patterns rel name H hnexcl) ev h q hq
        refine ⟨?_, this.2⟩
        rcases this.1 with ⟨t, ht⟩
        exact ⟨name :: t, by simpa using ht⟩
    · exact ihr H ev h q hq
  | case6 rel remotePath rest name remoteItem hput relStr hnexcl ihr =>
    intro H ev hev q hq
    rw [Bool.not_eq_true] at hnexcl
    rw [walkItems_file_ok w sep patterns name rest rel remotePath hnexcl hput] at hev
    rcases List.mem_cons.1 hev with h | h
    · subst h; simp only [eventLocal, Option.some.injEq] at hq; subst hq
      exact ⟨⟨[name], rfl⟩, H_extend sep patterns rel name H hnexcl⟩
    rcases List.mem_cons.1 h with h | h
    · subst h; simp only [eventLocal, Option.some.injEq] at hq; subst hq
      exact ⟨⟨[name], rfl⟩, H_extend sep patterns rel name H hnexcl⟩
    · exact ihr H ev h q hq
  | case7 rel remotePath rest name remoteItem val hput relStr hnexcl ihr =>
    intro H ev hev q hq
    rw [Bool.not_eq_true] at hnexcl
    rw [walkItems_file_err w sep patterns name rest rel remotePath hnexcl val hput] at hev
    rcases List.mem_cons.1 hev with h | h
    · subst h; simp only [eventLocal, Option.some.injEq] at hq; subst hq
      exact ⟨⟨[name], rfl⟩, H_extend sep patterns rel name H hnexcl⟩
    rcases List.mem_cons.1 h with h | h
    · subst h; simp [eventLocal] at hq
    · exact ihr H ev h q hq


theorem upload_directory_abort (w : SftpWorld) (sep : Char) (patterns : List PyStr)
    (children : List FSEntry) (remotePath : PyStr) (exc : PyExc)
    (h : (ensureDir w [] remotePath).2 = some exc) :
    upload_directory w sep patterns children remotePath =
      ((ensureDir w [] remotePath).1, some exc) := by
  simp only [upload_directory, h]

theorem upload_directory_ok (w : SftpWorld) (sep : Char) (patterns : List PyStr)
    (children : List FSEntry) (remotePath : PyStr)
    (h : (ensureDir w [] remotePath).2 = none) :
    upload_directory w sep patterns children remotePath =
      ((ensureDir w [] remotePath).1 ++
         (walkItems w sep patterns children [] remotePath).1,
       (walkItems w sep patterns children [] remotePath).2) := by
  simp only [upload_directory, h]

theorem upload_directory_events_rel (w : SftpWorld) (sep : Char) (patterns : List PyStr)
    (children : List FSEntry) (remotePath : PyStr) :
    ∀ ev ∈ (upload_directory w sep patterns children remotePath).1,
      ∀ q, eventLocal ev = some q →
        ∀ j, j < q.length →
          should_exclude (joinChar sep (q.take (j+1))) sep patterns = false := by
  intro ev hev q hq j hj
  have hroot : ∀ e, e ∈ (ensureDir w ([] : List PyStr) remotePath).1 →
      ∀ q, eventLocal e = some q → q = [] := by
    intro e he q hq
    rcases ensureDir_mem w _ _ e he with h | h <;>
      (subst h; simpa [eventLocal] using hq.symm)
  rcases hd : (ensureDir w [] remotePath).2 with _ | exc
  · rw [upload_directory_ok w sep patterns children remotePath hd] at hev
    rcases List.mem_append.1 hev with h | h
    · have := hroot ev h q hq
      subst this
      simp at hj
    · have := eventLocal_rel w sep patterns children [] remotePath
        (by intro j hj; simp at hj) ev h q hq
      exact this.2 j hj
  · rw [upload_directory_abort w sep patterns children remotePath exc hd] at hev
    have := hroot ev hev q hq
    subst this
    simp at hj

theorem walkItems_upload_remote (w : SftpWorld) (sep : Char) (patterns : List PyStr) :
    ∀ items rel remotePath q r,
      (Event.uploadAttempt q r ∈ (walkItems w sep patterns items rel remotePath).1 ∨
       Event.putOk q r ∈ (walkItems w sep patterns items rel remotePath).1) →
      ∃ t, t ≠ [] ∧ q = rel ++ t ∧ r = remotePath ++ '/' :: joinChar '/' t := by
  intro items rel remotePath
  induction items, rel, remotePath using walkItems.induct w sep patterns with
  | case1 rel remotePath =>
    intro q r h
    rw [walkItems_nil] at h
    simp at h
  | case2 rel remotePath item rest relStr hexcl ih =>
    intro q r h
    rw [walkItems_excluded w sep patterns item rest rel remotePath hexcl] at h
    rcases h with h | h <;> rcases List.mem_cons.1 h with h' | h'
    · exact absurd h' (by simp)
    · exact ih q r (Or.inl h')
    · exact absurd h' (by simp)
    · exact ih q r (Or.inr h')
  | case3 rel remotePath rest name children remoteItem e1 exc hexc relStr hnexcl =>
    intro q r h
    rw [Bool.not_eq_true] at hnexcl
    rw [walkItems_dir_abort w sep patterns name children rest rel remotePath hnexcl exc hexc] at h
    rcases h with h | h <;> rcases ensureDir_mem w _ _ _ h with h' | h' <;> simp at h'
  | case4 rel remotePath rest name children remoteItem e1 he1 rc exc hexc relStr hnexcl ihc =>
    intro q r h
    rw [Bool.not_eq_true] at hnexcl
    rw [walkItems_dir_childabort w sep patterns name children rest rel remotePath hnexcl he1 exc hexc] at h
    have h' : Event.uploadAttempt q r ∈
          (walkItems w sep patterns children (rel ++ [name]) (remotePath ++ '/' :: name)).1 ∨
        Event.putOk q r ∈
          (walkItems w sep patterns children (rel ++ [name]) (remotePath ++ '/' :: name)).1 := by
      rcases h with h | h <;> rcases List.mem_append.1 h with hm | hm
      · rcases ensureDir_mem w _ _ _ hm with h2 | h2 <;> simp at h2
      · exact Or.inl hm
      · rcases ensureDir_mem w _ _ _ hm with h2 | h2 <;> simp at h2
      · exact Or.inr hm
    rcases ihc q r h' with ⟨t, htne, hq, hr⟩
    refine ⟨name :: t, by simp, by simpa using hq, ?_⟩
    rcases t with _ | ⟨b, ts⟩
    · exact absurd rfl htne
    · rw [hr]
      show (remotePath ++ '/' :: name) ++ '/' :: joinChar '/' (b :: ts) = _
      simp [joinChar, List.append_assoc]
  | case5 rel remotePath rest name children remoteItem e1 he1 rc hrc relStr hnexcl ihc ihr =>
    intro q r h
    rw [Bool.not_eq_true] at hnexcl
    rw [walkItems_dir_ok w sep patterns name children rest rel remotePath hnexcl he1 hrc] at h
    have h3 : (Event.uploadAttempt q r ∈
          (walkItems w sep patterns children (rel ++ [name]) (remotePath ++ '/' :: name)).1 ∨
        Event.putOk q r ∈
          (walkItems w sep patterns children (rel ++ [name]) (remotePath ++ '/' :: name)).1) ∨
        (Event.uploadAttempt q r ∈ (walkItems w sep patterns rest rel remotePath).1 ∨
         Event.putOk q r ∈ (walkItems w sep patterns rest rel remotePath).1) := by
      rcases h with h | h <;> rcases List.mem_append.1 h with hm | hm
      · rcases List.mem_append.1 hm with hm' | hm'
        · rcases ensureDir_mem w _ _ _ hm' with h2 | h2 <;> simp at h2
        · exact Or.inl (Or.inl hm')
      · exact Or.inr (Or.inl hm)
      · rcases List.mem_append.1 hm with hm' | hm'
        · rcases ensureDir_mem w _ _ _ hm' with h2 | h2 <;> simp at h2
        · exact Or.inl (Or.inr hm')
      · exact Or.inr (Or.inr hm)
    rcases h3 with h' | h'
    · rcases ihc q r h' with ⟨t, htne, hq, hr⟩
      refine ⟨name :: t, by simp, by simpa using hq, ?_⟩
      rcases t with _ | ⟨b, ts⟩
      · exact absurd rfl htne
      · rw [hr]
        show (remotePath ++ '/' :: name) ++ '/' :: joinChar '/' (b :: ts) = _
        simp [joinChar, List.append_assoc]
    · exact ihr q r h'
  | case6 rel remotePath rest name remoteItem hput relStr hnexcl ihr =>
    intro q r h
    rw [Bool.not_eq_true] at hnexcl
    rw [walkItems_file_ok w sep patterns name rest rel remotePath hnexcl hput] at h
    rcases h with h | h <;> rcases List.mem_cons.1 h with h' | h'
    · rcases Event.uploadAttempt.inj h' with ⟨hq, hr⟩
      exact ⟨[name], by simp, hq, by rw [hr]; rfl⟩
    · rcases List.mem_cons.1 h' with h2 | h2
      · simp at h2
      · exact ihr q r (Or.inl h2)
    · simp at h'
    · rcases List.mem_cons.1 h' with h2 | h2
      · rcases Event.putOk.inj h2 with ⟨hq, hr⟩
        exact ⟨[name], by simp, hq, by rw [hr]; rfl⟩
      · exact ihr q r (Or.inr h2)
  | case7 rel remotePath rest name remoteItem val hput relStr hnexcl ihr =>
    intro q r h
    rw [Bool.not_eq_true] at hnexcl
    rw [walkItems_file_err w sep patterns name rest rel remotePath hnexcl val hput] at h
    rcases h with h | h <;> rcases List.mem_cons.1 h with h' | h'
    · rcases Event.uploadAttempt.inj h' with ⟨hq, hr⟩
      exact ⟨[name], by simp, hq, by rw [hr]; rfl⟩
    · rcases List.mem_cons.1 h' with h2 | h2
      · simp at h2
      · exact ihr q r (Or.inl h2)
    · simp at h'
    · rcases List.mem_cons.1 h' with h2 | h2
      · simp at h2
      · exact ihr q r (Or.inr h2)


theorem ensureDir_statfault (w : SftpWorld) (q0 : List PyStr) (r0 : PyStr) (e : PyExc)
    (hs : w.statR r0 = some e) (hne : e ≠ PyExc.fileNotFound) :
    ensureDir w q0 r0 = ([Event.statProbe q0 r0], some e) := by
  unfold ensureDir
  rw [hs]
  rcases e with _ | _ | m | m
  · exact absurd rfl hne
  all_goals rfl

theorem ensureDir_probe_mem (w : SftpWorld) (q0 : List PyStr) (r0 : PyStr)
    (q : List PyStr) (r : PyStr) :
    Event.statProbe q r ∈ (ensureDir w q0 r0).1 ↔ (q = q0 ∧ r = r0) := by
  unfold ensureDir
  rcases hs : w.statR r0 with _ | e
  · simp
  · rcases e with _ | _ | m | m <;> simp

theorem ensureDir_mkdir_mem (w : SftpWorld) (q0 : List PyStr) (r0 : PyStr)
    (q : List PyStr) (r : PyStr) :
    Event.mkdirCall q r ∈ (ensureDir w q0 r0).1 ↔
      (q = q0 ∧ r = r0 ∧ w.statR r0 = some PyExc.fileNotFound) := by
  unfold ensureDir
  rcases hs : w.statR r0 with _ | e
  · simp [hs]
  · rcases e with _ | _ | m | m <;> simp [hs]

theorem getLast?_ne_nil {α : Type} {l : List α} {x : α} (h : l.getLast? = some x) :
    l ≠ [] := by
  intro hc
  subst hc
  simp at h

theorem getLast?_cons_ne_nil {α : Type} (a : α) {l : List α} (h : l ≠ []) :
    (a :: l).getLast? = l.getLast? := by
  rcases l with _ | ⟨b, t⟩
  · exact absurd rfl h
  · exact List.getLast?_cons_cons

theorem getLast?_append_right {α : Type} (A : List α) {B : List α} (h : B ≠ []) :
    (A ++ B).getLast? = B.getLast? := by
  induction A with
  | nil => rfl
  | cons a A ih =>
    rw [List.cons_append, getLast?_cons_ne_nil a ?_, ih]
    intro hc
    rcases List.append_eq_nil.1 hc with ⟨_, h2⟩
    exact h h2

theorem walkItems_probe_fault (w : SftpWorld) (sep : Char) (patterns : List PyStr) :
    ∀ items rel remotePath, ∀ q r (e : PyExc), w.statR r = some e →
      e ≠ PyExc.fileNotFound →
      Event.statProbe q r ∈ (walkItems w sep patterns items rel remotePath).1 →
      (walkItems w sep patterns items rel remotePath).2 = some e ∧
      (walkItems w sep patterns items rel remotePath).1.getLast? =
        some (Event.statProbe q r) := by
  intro items rel remotePath
  induction items, rel, remotePath using walkItems.induct w sep patterns with
  | case1 rel remotePath =>
    intro q r e hs hne hmem
    rw [walkItems_nil] at hmem
    simp at hmem
  | case2 rel remotePath item rest relStr hexcl ih =>
    intro q r e hs hne hmem
    rw [walkItems_excluded w sep patterns item rest rel remotePath hexcl] at hmem ⊢
    rcases List.mem_cons.1 hmem with h | h
    · simp at h
    · rcases ih q r e hs hne h with ⟨h2, hl⟩
      exact ⟨h2, by rw [getLast?_cons_ne_nil _ (getLast?_ne_nil hl)]; exact hl⟩
  | case3 rel remotePath rest name children remoteItem e1 exc hexc relStr hnexcl =>
    intro q r e hs hne hmem
    rw [Bool.not_eq_true] at hnexcl
    rw [walkItems_dir_abort w sep patterns name children rest rel remotePath hnexcl exc hexc] at hmem ⊢
    rcases (ensureDir_probe_mem w _ _ q r).1 hmem with ⟨rfl, rfl⟩
    have hE := ensureDir_statfault w (rel ++ [name]) (remotePath ++ '/' :: name) e hs hne
    have hexc' : some e = some exc := by
      have : (ensureDir w (rel ++ [name]) (remotePath ++ '/' :: name)).2 = some e := by
        rw [hE]
      rw [← this, hexc]
    refine ⟨by rw [← hexc'], ?_⟩
    rw [hE]
    rfl
  | case4 rel remotePath rest name children remoteItem e1 he1 rc exc hexc relStr hnexcl ihc =>
    intro q r e hs hne hmem
    rw [Bool.not_eq_true] at hnexcl
    rw [walkItems_dir_childabort w sep patterns name children rest rel remotePath hnexcl he1 exc hexc] at hmem ⊢
    rcases List.mem_append.1 hmem with h | h
    · rcases (ensureDir_probe_mem w _ _ q r).1 h with ⟨rfl, rfl⟩
      have hE := ensureDir_statfault w (rel ++ [name]) (remotePath ++ '/' :: name) e hs hne
      have he1' : (ensureDir w (rel ++ [name]) (remotePath ++ '/' :: name)).2 = none := he1
      rw [hE] at he1'
      simp at he1'
    · rcases ihc q r e hs hne h with ⟨h2, hl⟩
      have h3 : some exc = some e := by rw [← hexc, h2]
      refine ⟨by rw [h3], ?_⟩
      rw [getLast?_append_right _ (getLast?_ne_nil hl)]
      exact hl
  | case5 rel remotePath rest name children remoteItem e1 he1 rc hrc relStr hnexcl ihc ihr =>
    intro q r e hs hne hmem
    rw [Bool.not_eq_true] at hnexcl
    rw [walkItems_dir_ok w sep patterns name children rest rel remotePath hnexcl he1 hrc] at hmem ⊢
    rcases List.mem_append.1 hmem with h | h
    · rcases List.mem_append.1 h with h' | h'
      · rcases (ensureDir_probe_mem w _ _ q r).1 h' with ⟨rfl, rfl⟩
        have hE := ensureDir_statfault w (rel ++ [name]) (remotePath ++ '/' :: name) e hs hne
        have he1' : (ensureDir w (rel ++ [name]) (remotePath ++ '/' :: name)).2 = none := he1
        rw [hE] at he1'
        simp at he1'
      · rcases ihc q r e hs hne h' with ⟨h2, hl⟩
        rw [h2] at hrc
        simp at hrc
    · rcases ihr q r e hs hne h with ⟨h2, hl⟩
      refine ⟨h2, ?_⟩
      rw [List.append_assoc, getLast?_append_right _ ?_]
      · rw [getLast?_append_right _ (getLast?_ne_nil hl)]
        exact hl
      · intro hc
        rcases List.append_eq_nil.1 hc with ⟨_, h4⟩
        exact getLast?_ne_nil hl h4
  | case6 rel remotePath rest name remoteItem hput relStr hnexcl ihr =>
    intro q r e hs hne hmem
    rw [Bool.not_eq_true] at hnexcl
    rw [walkItems_file_ok w sep patterns name rest rel remotePath hnexcl hput] at hmem ⊢
    rcases List.mem_cons.1 hmem with h | h
    · simp at h
    rcases List.mem_cons.1 h with h' | h'
    · simp at h'
    rcases ihr q r e hs hne h' with ⟨h2, hl⟩
    refine ⟨h2, ?_⟩
    rw [getLast?_cons_ne_nil _ (by simp), getLast?_cons_ne_nil _ (getLast?_ne_nil hl)]
    exact hl
  | case7 rel remotePath rest name remoteItem val hput relStr hnexcl ihr =>
    intro q r e hs hne hmem
    rw [Bool.not_eq_true] at hnexcl
    rw [walkItems_file_err w sep patterns name rest rel remotePath hnexcl val hput] at hmem ⊢
    rcases List.mem_cons.1 hmem with h | h
    · simp at h
    rcases List.mem_cons.1 h with h' | h'
    · simp at h'
    rcases ihr q r e hs hne h' with ⟨h2, hl⟩
    refine ⟨h2, ?_⟩
    rw [getLast?_cons_ne_nil _ (by simp), getLast?_cons_ne_nil _ (getLast?_ne_nil hl)]
    exact hl


theorem walkItems_mkdir_iff (w : SftpWorld) (sep : Char) (patterns : List PyStr) :
    ∀ items rel remotePath, ∀ q r,
      Event.mkdirCall q r ∈ (walkItems w sep patterns items rel remotePath).1 ↔
        (Event.statProbe q r ∈ (walkItems w sep patterns items rel remotePath).1 ∧
         w.statR r = some PyExc.fileNotFound) := by
  intro items rel remotePath
  induction items, rel, remotePath using walkItems.induct w sep patterns with
  | case1 rel remotePath =>
    intro q r
    rw [walkItems_nil]
    simp
  | case2 rel remotePath item rest relStr hexcl ih =>
    intro q r
    rw [walkItems_excluded w sep patterns item rest rel remotePath hexcl]
    constructor
    · intro h
      rcases List.mem_cons.1 h with h' | h'
      · simp at h'
      · rcases (ih q r).1 h' with ⟨hp, hst⟩
        exact ⟨List.mem_cons_of_mem _ hp, hst⟩
    · rintro ⟨hp, hst⟩
      rcases List.mem_cons.1 hp with h' | h'
      · simp at h'
      · exact List.mem_cons_of_mem _ ((ih q r).2 ⟨h', hst⟩)
  | case3 rel remotePath rest name children remoteItem e1 exc hexc relStr hnexcl =>
    intro q r
    rw [Bool.not_eq_true] at hnexcl
    rw [walkItems_dir_abort w sep patterns name children rest rel remotePath hnexcl exc hexc]
    constructor
    · intro h
      rcases (ensureDir_mkdir_mem w _ _ q r).1 h with ⟨rfl, rfl, hst⟩
      exact ⟨(ensureDir_probe_mem w _ _ _ _).2 ⟨rfl, rfl⟩, hst⟩
    · rintro ⟨hp, hst⟩
      rcases (ensureDir_probe_mem w _ _ q r).1 hp with ⟨rfl, rfl⟩
      exact (ensureDir_mkdir_mem w _ _ _ _).2 ⟨rfl, rfl, hst⟩
  | case4 rel remotePath rest name children remoteItem e1 he1 rc exc hexc relStr hnexcl ihc =>
    intro q r
    rw [Bool.not_eq_true] at hnexcl
    rw [walkItems_dir_childabort w sep patterns name children rest rel remotePath hnexcl he1 exc hexc]
    constructor
    · intro h
      rcases List.mem_append.1 h with h' | h'
      · rcases (ensureDir_mkdir_mem w _ _ q r).1 h' with ⟨rfl, rfl, hst⟩
        exact ⟨List.mem_append_left _ ((ensureDir_probe_mem w _ _ _ _).2 ⟨rfl, rfl⟩), hst⟩
      · rcases (ihc q r).1 h' with ⟨hp, hst⟩
        exact ⟨List.mem_append_right _ hp, hst⟩
    · rintro ⟨hp, hst⟩
      rcases List.mem_append.1 hp with h' | h'
      · rcases (ensureDir_probe_mem w _ _ q r).1 h' with ⟨rfl, rfl⟩
        exact List.mem_append_left _ ((ensureDir_mkdir_mem w _ _ _ _).2 ⟨rfl, rfl, hst⟩)
      · exact List.mem_append_right _ ((ihc q r).2 ⟨h', hst⟩)
  | case5 rel remotePath rest name children remoteItem e1 he1 rc hrc relStr hnexcl ihc ihr =>
    intro q r
    rw [Bool.not_eq_true] at hnexcl
    rw [walkItems_dir_ok w sep patterns name children rest rel remotePath hnexcl he1 hrc]
    constructor
    · intro h
      rcases List.mem_append.1 h with h' | h'
      · rcases List.mem_append.1 h' with h2 | h2
        · rcases (ensureDir_mkdir_mem w _ _ q r).1 h2 with ⟨rfl, rfl, hst⟩
          exact ⟨List.mem_append_left _ (List.mem_append_left _
            ((ensureDir_probe_mem w _ _ _ _).2 ⟨rfl, rfl⟩)), hst⟩
        · rcases (ihc q r).1 h2 with ⟨hp, hst⟩
          exact ⟨List.mem_append_left _ (List.mem_append_right _ hp), hst⟩
      · rcases (ihr q r).1 h' with ⟨hp, hst⟩
        exact ⟨List.mem_append_right _ hp, hst⟩
    · rintro ⟨hp, hst⟩
      rcases List.mem_append.1 hp with h' | h'
      · rcases List.mem_append.1 h' with h2 | h2
        · rcases (ensureDir_probe_mem w _ _ q r).1 h2 with ⟨rfl, rfl⟩
          exact List.mem_append_left _ (List.mem_append_left _
            ((ensureDir_mkdir_mem w _ _ _ _).2 ⟨rfl, rfl, hst⟩))
        · exact List.mem_append_left _ (List.mem_append_right _ ((ihc q r).2 ⟨h2, hst⟩))
      · exact List.mem_append_right _ ((ihr q r).2 ⟨h', hst⟩)
  | case6 rel remotePath rest name remoteItem hput relStr hnexcl ihr =>
    intro q r
    rw [Bool.not_eq_true] at hnexcl
    rw [walkItems_file_ok w sep patterns name rest rel remotePath hnexcl hput]
    constructor
    · intro h
      rcases List.mem_cons.1 h with h' | h'
      · simp at h'
      rcases List.mem_cons.1 h' with h2 | h2
      · simp at h2
      rcases (ihr q r).1 h2 with ⟨hp, hst⟩
      exact ⟨List.mem_cons_of_mem _ (List.mem_cons_of_mem _ hp), hst⟩
    · rintro ⟨hp, hst⟩
      rcases List.mem_cons.1 hp with h' | h'
      · simp at h'
      rcases List.mem_cons.1 h' with h2 | h2
      · simp at h2
      exact List.mem_cons_of_mem _ (List.mem_cons_of_mem _ ((ihr q r).2 ⟨h2, hst⟩))
  | case7 rel remotePath rest name remoteItem val hput relStr hnexcl ihr =>
    intro q r
    rw [Bool.not_eq_true] at hnexcl
    rw [walkItems_file_err w sep patterns name rest rel remotePath hnexcl val hput]
    constructor
    · intro h
      rcases List.mem_cons.1 h with h' | h'
      · simp at h'
      rcases List.mem_cons.1 h' with h2 | h2
      · simp at h2
      rcases (ihr q r).1 h2 with ⟨hp, hst⟩
      exact ⟨List.mem_cons_of_mem _ (List.mem_cons_of_mem _ hp), hst⟩
    · rintro ⟨hp, hst⟩
      rcases List.mem_cons.1 hp with h' | h'
      · simp at h'
      rcases List.mem_cons.1 h' with h2 | h2
      · simp at h2
      exact List.mem_cons_of_mem _ (List.mem_cons_of_mem _ ((ihr q r).2 ⟨h2, hst⟩))

theorem walk_events_shape (w : SftpWorld) (sep : Char) (patterns : List PyStr) :
    ∀ items rel remotePath, ∀ ev ∈ (walkItems w sep patterns items rel remotePath).1,
      isWalkEvent ev = true := by
  intro items rel remotePath
  induction items, rel, remotePath using walkItems.induct w sep patterns with
  | case1 rel remotePath =>
    intro ev hev
    rw [walkItems_nil] at hev
    simp at hev
  | case2 rel remotePath item rest relStr hexcl ih =>
    intro ev hev
    rw [walkItems_excluded w sep patterns item rest rel remotePath hexcl] at hev
    rcases List.mem_cons.1 hev with h | h
    · subst h; rfl
    · exact ih ev h
  | case3 rel remotePath rest name children remoteItem e1 exc hexc relStr hnexcl =>
    intro ev hev
    rw [Bool.not_eq_true] at hnexcl
    rw [walkItems_dir_abort w sep patterns name children rest rel remotePath hnexcl exc hexc] at hev
    rcases ensureDir_mem w _ _ ev hev with h | h <;> (subst h; rfl)
  | case4 rel remotePath rest name children remoteItem e1 he1 rc exc hexc relStr hnexcl ihc =>
    intro ev hev
    rw [Bool.not_eq_true] at hnexcl
    rw [walkItems_dir_childabort w sep patterns name children rest rel remotePath hnexcl he1 exc hexc] at hev
    rcases List.mem_append.1 hev with h | h
    · rcases ensureDir_mem w _ _ ev h with h' | h' <;> (subst h'; rfl)
    · exact ihc ev h
  | case5 rel remotePath rest name children remoteItem e1 he1 rc hrc relStr hnexcl ihc ihr =>
    intro ev hev
    rw [Bool.not_eq_true] at hnexcl
    rw [walkItems_dir_ok w sep patterns name children rest rel remotePath hnexcl he1 hrc] at hev
    rcases List.mem_append.1 hev with h | h
    · rcases List.mem_append.1 h with h' | h'
      · rcases ensureDir_mem w _ _ ev h' with h2 | h2 <;> (subst h2; rfl)
      · exact ihc ev h'
    · exact ihr ev h
  | case6 rel remotePath rest name remoteItem hput relStr hnexcl ihr =>
    intro ev hev
    rw [Bool.not_eq_true] at hnexcl
    rw [walkItems_file_ok w sep patterns name rest rel remotePath hnexcl hput] at hev
    rcases List.mem_cons.1 hev with h | h
    · subst h; rfl
    rcases List.mem_cons.1 h with h' | h'
    · subst h'; rfl
    · exact ihr ev h'
  | case7 rel remotePath rest name remoteItem val hput relStr hnexcl ihr =>
    intro ev hev
    rw [Bool.not_eq_true] at hnexcl
    rw [walkItems_file_err w sep patterns name rest rel remotePath hnexcl val hput] at hev
    rcases List.mem_cons.1 hev with h | h
    · subst h; rfl
    rcases List.mem_cons.1 h with h' | h'
    · subst h'; rfl
    · exact ihr ev h'


theorem upload_mkdir_iff_aux (w : SftpWorld) (sep : Char) (patterns : List PyStr)
    (tree : List FSEntry) (remotePath : PyStr) (q : List PyStr) (r : PyStr) :
    Event.mkdirCall q r ∈ (upload_directory w sep patterns tree remotePath).1 ↔
      (Event.statProbe q r ∈ (upload_directory w sep patterns tree remotePath).1 ∧
       w.statR r = some PyExc.fileNotFound) := by
  rcases hd : (ensureDir w [] remotePath).2 with _ | exc
  · rw [upload_directory_ok w sep patterns tree remotePath hd]
    constructor
    · intro h
      rcases List.mem_append.1 h with h' | h'
      · rcases (ensureDir_mkdir_mem w _ _ q r).1 h' with ⟨rfl, rfl, hst⟩
        exact ⟨List.mem_append_left _ ((ensureDir_probe_mem w _ _ _ _).2 ⟨rfl, rfl⟩), hst⟩
      · rcases (walkItems_mkdir_iff w sep patterns tree [] remotePath q r).1 h' with ⟨hp, hst⟩
        exact ⟨List.mem_append_right _ hp, hst⟩
    · rintro ⟨hp, hst⟩
      rcases List.mem_append.1 hp with h' | h'
      · rcases (ensureDir_probe_mem w _ _ q r).1 h' with ⟨rfl, rfl⟩
        exact List.mem_append_left _ ((ensureDir_mkdir_mem w _ _ _ _).2 ⟨rfl, rfl, hst⟩)
      · exact List.mem_append_right _
          ((walkItems_mkdir_iff w sep patterns tree [] remotePath q r).2 ⟨h', hst⟩)
  · rw [upload_directory_abort w sep patterns tree remotePath exc hd]
    constructor
    · intro h
      rcases (ensureDir_mkdir_mem w _ _ q r).1 h with ⟨rfl, rfl, hst⟩
      exact ⟨(ensureDir_probe_mem w _ _ _ _).2 ⟨rfl, rfl⟩, hst⟩
    · rintro ⟨hp, hst⟩
      rcases (ensureDir_probe_mem w _ _ q r).1 hp with ⟨rfl, rfl⟩
      exact (ensureDir_mkdir_mem w _ _ _ _).2 ⟨rfl, rfl, hst⟩

theorem upload_probe_fault_aux (w : SftpWorld) (sep : Char) (patterns : List PyStr)
    (tree : List FSEntry) (remotePath : PyStr) (q : List PyStr) (r : PyStr) (e : PyExc)
    (hs : w.statR r = some e) (hne : e ≠ PyExc.fileNotFound)
    (hmem : Event.statProbe q r ∈ (upload_directory w sep patterns tree remotePath).1) :
    (upload_directory w sep patterns tree remotePath).2 = some e ∧
    (upload_directory w sep patterns tree remotePath).1.getLast? =
      some (Event.statProbe q r) := by
  rcases hd : (ensureDir w [] remotePath).2 with _ | exc
  · rw [upload_directory_ok w sep patterns tree remotePath hd] at hmem ⊢
    rcases List.mem_append.1 hmem with h | h
    · rcases (ensureDir_probe_mem w _ _ q r).1 h with ⟨hq, hr⟩
      rw [hr] at hs
      have hE := ensureDir_statfault w [] remotePath e hs hne
      rw [hE] at hd
      simp at hd
    · rcases walkItems_probe_fault w sep patterns tree [] remotePath q r e hs hne h with ⟨h2, hl⟩
      refine ⟨h2, ?_⟩
      rw [getLast?_append_right _ (getLast?_ne_nil hl)]
      exact hl
  · rw [upload_directory_abort w sep patterns tree remotePath exc hd] at hmem ⊢
    rcases (ensureDir_probe_mem w _ _ q r).1 hmem with ⟨hq, hr⟩
    rw [hr] at hs
    have hE := ensureDir_statfault w [] remotePath e hs hne
    rw [hE] at hd
    simp at hd
    subst hd
    rw [hE, hq, hr]
    exact ⟨rfl, rfl⟩


/-- Claim C1 (corrected), counterexample: on the path `*.pyc/foo` under the
script's own rule set, `should_exclude` reports exclusion (the wildcard rule
`*.pyc`, applied verbatim by the literal segment check of line 61, equals the
first path segment), while the spec's predicate — whose literal check covers
only non-wildcard rules — reports no exclusion. -/
theorem should_exclude_differs_from_spec :
    should_exclude "*.pyc/foo".toList '/' EXCLUDE_PATTERNS = true ∧
    spec_is_excluded "*.pyc/foo".toList '/' EXCLUDE_PATTERNS = false := by
  decide

/-- Claim C1 (amended): `should_exclude` reports a path excluded iff some rule
in the set — wildcard rules included, compared verbatim — equals a
separator-split segment of the path, or some rule of the form `*s` is such
that the path ends with `s`. -/
theorem should_exclude_characterisation (rel_path : PyStr) (sep : Char)
    (patterns : List PyStr) :
    should_exclude rel_path sep patterns = true ↔
      (∃ pat ∈ patterns, pat ∈ splitChar sep rel_path) ∨
      (∃ pat ∈ patterns, startswith_star pat = true ∧
        List.isSuffixOf (pat.drop 1) rel_path = true) := by
  unfold should_exclude
  rw [List.any_eq_true]
  constructor
  · rintro ⟨pat, hpat, h⟩
    simp only [Bool.or_eq_true, Bool.and_eq_true] at h
    rcases h with h' | ⟨h1, h2⟩
    · exact Or.inl ⟨pat, hpat, by simpa using h'⟩
    · exact Or.inr ⟨pat, hpat, h1, h2⟩
  · rintro (⟨pat, hpat, h⟩ | ⟨pat, hpat, h1, h2⟩)
    · refine ⟨pat, hpat, ?_⟩
      simp only [Bool.or_eq_true]
      exact Or.inl (by simpa using h)
    · refine ⟨pat, hpat, ?_⟩
      simp only [Bool.or_eq_true, Bool.and_eq_true]
      exact Or.inr ⟨h1, h2⟩


/-- Claim C2: an entry whose root-relative path is excluded is skipped whole:
no event of the walk — remote probe, directory creation, or file upload —
concerns that entry or any path below it. -/
theorem excluded_entry_never_visited (w : SftpWorld) (sep : Char) (patterns : List PyStr)
    (tree : List FSEntry) (remoteRoot : PyStr) (dPath q : List PyStr) (ev : Event)
    (hmem : ev ∈ (upload_directory w sep patterns tree remoteRoot).1)
    (hloc : eventLocal ev = some q)
    (hne : dPath ≠ [])
    (hexcl : should_exclude (joinChar sep dPath) sep patterns = true) :
    ¬ ∃ t, dPath ++ t = q := by
  rintro ⟨t, rfl⟩
  have hlen : 1 ≤ dPath.length := by
    rcases dPath with _ | ⟨a, d⟩
    · exact absurd rfl hne
    · simp
  have h := upload_directory_events_rel w sep patterns tree remoteRoot ev hmem _ hloc
      (dPath.length - 1) (by simp only [List.length_append]; omega)
  rw [Nat.sub_add_cancel hlen, List.take_left] at h
  rw [h] at hexcl
  exact absurd hexcl (by simp)

/-- Claim C3: every file-upload call's remote destination equals the remote
base directory followed by `/` and the file's root-relative components joined
with `/`, whatever separator the local OS uses. -/
theorem uploaded_file_remote_path (w : SftpWorld) (sep : Char) (patterns : List PyStr)
    (tree : List FSEntry) (remoteRoot : PyStr) (q : List PyStr) (r : PyStr)
    (hmem : Event.uploadAttempt q r ∈ (upload_directory w sep patterns tree remoteRoot).1) :
    r = remoteRoot ++ '/' :: joinChar '/' q := by
  rcases hd : (ensureDir w [] remoteRoot).2 with _ | exc
  · rw [upload_directory_ok w sep patterns tree remoteRoot hd] at hmem
    rcases List.mem_append.1 hmem with h | h
    · rcases ensureDir_mem w _ _ _ h with h' | h' <;> simp at h'
    · rcases walkItems_upload_remote w sep patterns tree [] remoteRoot q r (Or.inl h) with
        ⟨t, htne, hq, hr⟩
      simp only [List.nil_append] at hq
      subst hq
      exact hr
  · rw [upload_directory_abort w sep patterns tree remoteRoot exc hd] at hmem
    rcases ensureDir_mem w _ _ _ hmem with h' | h' <;> simp at h'

/-- Claim C4: a remote directory-creation call is issued for a path exactly
when the existence probe of that path signals not-found (so an existing remote
directory triggers no creation call), and a probe fault other than not-found
escapes uncaught: it becomes the walk's exception and the faulting probe is the
last event of the walk. -/
theorem mkdir_iff_not_found_and_other_fault_aborts (w : SftpWorld) (sep : Char)
    (patterns : List PyStr) (tree : List FSEntry) (remotePath : PyStr)
    (q : List PyStr) (r : PyStr) :
    (Event.mkdirCall q r ∈ (upload_directory w sep patterns tree remotePath).1 ↔
      (Event.statProbe q r ∈ (upload_directory w sep patterns tree remotePath).1 ∧
       w.statR r = some PyExc.fileNotFound)) ∧
    (∀ e : PyExc, w.statR r = some e → e ≠ PyExc.fileNotFound →
      Event.statProbe q r ∈ (upload_directory w sep patterns tree remotePath).1 →
      (upload_directory w sep patterns tree remotePath).2 = some e ∧
      (upload_directory w sep patterns tree remotePath).1.getLast? =
        some (Event.statProbe q r)) :=
  ⟨upload_mkdir_iff_aux w sep patterns tree remotePath q r,
   fun e hs hne hmem => upload_probe_fault_aux w sep patterns tree remotePath q r e hs hne hmem⟩

/-- Claim C5: a fault raised by the put call for one file is caught inside the
loop: the walk records the attempt and the error report for that file and then
processes the remaining entries exactly as it otherwise would — every sibling
and later entry is still handled. -/
theorem file_upload_fault_isolated (w : SftpWorld) (sep : Char) (patterns : List PyStr)
    (name : PyStr) (rest : List FSEntry) (rel : List PyStr) (remotePath : PyStr) (e : PyExc)
    (hnex : should_exclude (joinChar sep (rel ++ [name])) sep patterns = false)
    (hput : w.putR (rel ++ [name]) (remotePath ++ '/' :: name) = some e) :
    walkItems w sep patterns (FSEntry.file name :: rest) rel remotePath =
      (Event.uploadAttempt (rel ++ [name]) (remotePath ++ '/' :: name) ::
         Event.uploadError name ::
         (walkItems w sep patterns rest rel remotePath).1,
       (walkItems w sep patterns rest rel remotePath).2) :=
  walkItems_file_err w sep patterns name rest rel remotePath hnex e hput

/-- Claim C10: the per-file handler catches every exception kind — whatever
fault the put call raises, connection-level `SSHException` included, the loop
records it as a per-file error and finishes with no escaping exception — while
a connection-level fault surfacing in a directory probe propagates and becomes
the walk's exception. -/
theorem put_fault_absorbed_probe_fault_fatal (w : SftpWorld) (sep : Char)
    (patterns : List PyStr) (name : PyStr) (rel : List PyStr) (remotePath : PyStr)
    (tree : List FSEntry) (q : List PyStr) (r : PyStr) (m : PyStr) :
    (∀ e : PyExc,
       should_exclude (joinChar sep (rel ++ [name])) sep patterns = false →
       w.putR (rel ++ [name]) (remotePath ++ '/' :: name) = some e →
       (walkItems w sep patterns [FSEntry.file name] rel remotePath).2 = none ∧
       (walkItems w sep patterns [FSEntry.file name] rel remotePath).1 =
         [Event.uploadAttempt (rel ++ [name]) (remotePath ++ '/' :: name),
          Event.uploadError name]) ∧
    (w.statR r = some (PyExc.ssh m) →
     Event.statProbe q r ∈ (upload_directory w sep patterns tree remotePath).1 →
     (upload_directory w sep patterns tree remotePath).2 = some (PyExc.ssh m)) := by
  constructor
  · intro e hnex hput
    rw [walkItems_file_err w sep patterns name [] rel remotePath hnex e hput, walkItems_nil]
    exact ⟨rfl, rfl⟩
  · intro hs hmem
    exact (upload_probe_fault_aux w sep patterns tree remotePath q r (PyExc.ssh m) hs
      (by simp) hmem).1


theorem upload_events_shape (w : SftpWorld) (sep : Char) (patterns : List PyStr)
    (tree : List FSEntry) (remotePath : PyStr) :
    ∀ ev ∈ (upload_directory w sep patterns tree remotePath).1, isWalkEvent ev = true := by
  intro ev hev
  rcases hd : (ensureDir w [] remotePath).2 with _ | exc
  · rw [upload_directory_ok w sep patterns tree remotePath hd] at hev
    rcases List.mem_append.1 hev with h | h
    · rcases ensureDir_mem w _ _ _ h with h' | h' <;> (subst h'; rfl)
    · exact walk_events_shape w sep patterns tree [] remotePath ev h
  · rw [upload_directory_abort w sep patterns tree remotePath exc hd] at hev
    rcases ensureDir_mem w _ _ _ hev with h' | h' <;> (subst h'; rfl)

theorem tryBody_closes (w : MainWorld) :
    ((tryBody w).2 = none →
      Event.sftpClose ∈ (tryBody w).1 ∧ Event.clientClose ∈ (tryBody w).1) ∧
    (∀ e, (tryBody w).2 = some e →
      Event.sftpClose ∉ (tryBody w).1 ∧ Event.clientClose ∉ (tryBody w).1) := by
  have hup := upload_events_shape w.sftp w.sep EXCLUDE_PATTERNS w.tree SERVER_PATH
  have hs1 : Event.sftpClose ∉ (upload_directory w.sftp w.sep EXCLUDE_PATTERNS w.tree SERVER_PATH).1 :=
    fun hc => absurd (hup _ hc) (by simp [isWalkEvent])
  have hs2 : Event.clientClose ∉ (upload_directory w.sftp w.sep EXCLUDE_PATTERNS w.tree SERVER_PATH).1 :=
    fun hc => absurd (hup _ hc) (by simp [isWalkEvent])
  unfold tryBody
  rcases w.connectR with _ | e0
  case some => exact ⟨by simp, by intro e h; exact ⟨by simp, by simp⟩⟩
  rcases w.openSftpR with _ | e0
  case some => exact ⟨by simp, by intro e h; exact ⟨by simp, by simp⟩⟩
  rcases w.execR mkdirCmd with e0 | o1
  case error => exact ⟨by simp, by intro e h; exact ⟨by simp, by simp⟩⟩
  rcases hu : (upload_directory w.sftp w.sep EXCLUDE_PATTERNS w.tree SERVER_PATH).2 with _ | e0
  all_goals simp only [hu]
  case some =>
    refine ⟨by simp, ?_⟩
    intro e h
    exact ⟨by simp [List.mem_append, hs1], by simp [List.mem_append, hs2]⟩
  rcases w.execR docker_cmd with e0 | o2
  case error =>
    refine ⟨by simp, ?_⟩
    intro e h
    exact ⟨by simp [List.mem_append, hs1], by simp [List.mem_append, hs2]⟩
  rcases w.execR dockerPsCmd with e0 | o3
  case error =>
    refine ⟨by simp, ?_⟩
    intro e h
    exact ⟨by simp [List.mem_append, hs1], by simp [List.mem_append, hs2]⟩
  · refine ⟨?_, by intro e h; simp at h⟩
    intro _
    exact ⟨by simp [List.mem_append], by simp [List.mem_append]⟩


theorem tryBody_connect (w : MainWorld) :
    Event.connect SERVER_IP SERVER_USER ∈ (tryBody w).1 := by
  unfold tryBody
  rcases w.connectR with _ | e0
  case some => simp
  rcases w.openSftpR with _ | e0
  case some => simp
  rcases w.execR mkdirCmd with e0 | o1
  case error => simp
  rcases hu : (upload_directory w.sftp w.sep EXCLUDE_PATTERNS w.tree SERVER_PATH).2 with _ | e0
  all_goals simp only [hu]
  case some => simp
  rcases w.execR docker_cmd with e0 | o2
  case error => simp
  rcases w.execR dockerPsCmd with e0 | o3
  case error => simp
  · simp

theorem main_trace_eq (argv : List PyStr) (env : PyStr → Option PyStr)
    (w : MainWorld) (hpw : get_password argv env ≠ []) :
    (main argv env w).2 = (tryBody w).1 := by
  simp only [main]
  rw [if_neg hpw]
  cases htb : (tryBody w).2 <;> simp

/-- Claim C6: with no command-line argument beyond the program name and the
environment variable unset, the credential is empty: the program reports and
exits `1` with an empty call trace — no connection, command, or transfer call
is made. -/
theorem missing_password_exits_one (argv : List PyStr) (env : PyStr → Option PyStr)
    (w : MainWorld) (hargv : argv.length ≤ 1)
    (henv : env "SSH_PASSWORD".toList = none) :
    main argv env w = (1, []) := by
  simp only [main, get_password]
  rw [dif_neg (by omega), henv]
  simp

/-- Claim C7: when every remote call returns (no exception), the remote exit
statuses of the directory-creation and docker compose commands are only
reported: whatever they are, the verification listing still runs and the
process exits `0`. -/
theorem remote_command_failure_not_fatal (argv : List PyStr) (env : PyStr → Option PyStr)
    (w : MainWorld) (o1 o3 : PyStr × PyStr × Nat) (out err : PyStr) (code : Nat)
    (hpw : get_password argv env ≠ [])
    (hc : w.connectR = none) (ho : w.openSftpR = none)
    (h1 : w.execR mkdirCmd = Except.ok o1)
    (hup : (upload_directory w.sftp w.sep EXCLUDE_PATTERNS w.tree SERVER_PATH).2 = none)
    (h2 : w.execR docker_cmd = Except.ok (out, err, code))
    (h3 : w.execR dockerPsCmd = Except.ok o3) :
    (main argv env w).1 = 0 ∧ Event.execCmd dockerPsCmd ∈ (main argv env w).2 := by
  have hbody : tryBody w =
      ([Event.connect SERVER_IP SERVER_USER] ++ [Event.sftpOpen] ++ [Event.execCmd mkdirCmd] ++
        (upload_directory w.sftp w.sep EXCLUDE_PATTERNS w.tree SERVER_PATH).1 ++
        [Event.execCmd docker_cmd] ++ [Event.execCmd dockerPsCmd] ++
        [Event.sftpClose, Event.clientClose], none) := by
    unfold tryBody
    rw [hc, ho, h1, h2, h3]
    simp only [hup]
  simp only [main]
  rw [if_neg hpw, hbody]
  exact ⟨rfl, by simp⟩

/-- Claim C8: the close calls on the transfer channel and the session run
exactly in those runs whose body raised no uncaught fault; when the body
raises, the process exits `1` and neither close call has run. -/
theorem teardown_skipped_on_fault (argv : List PyStr) (env : PyStr → Option PyStr)
    (w : MainWorld) (hpw : get_password argv env ≠ []) :
    ((tryBody w).2 = none →
      Event.sftpClose ∈ (main argv env w).2 ∧ Event.clientClose ∈ (main argv env w).2) ∧
    (∀ e, (tryBody w).2 = some e →
      (main argv env w).1 = 1 ∧
      Event.sftpClose ∉ (main argv env w).2 ∧ Event.clientClose ∉ (main argv env w).2) := by
  have hm := main_trace_eq argv env w hpw
  constructor
  · intro h
    rw [hm]
    exact (tryBody_closes w).1 h
  · intro e h
    refine ⟨?_, ?_, ?_⟩
    · simp only [main]
      rw [if_neg hpw]
      simp [h]
    · rw [hm]
      exact ((tryBody_closes w).2 e h).1
    · rw [hm]
      exact ((tryBody_closes w).2 e h).2

/-- Claim C9: an empty credential is treated like an absent one — an empty
first argument, or no argument with the variable unset or empty, exits `1`
with no call made; and whenever the credential is non-empty the connection is
attempted: emptiness, not absence, is the tested condition. -/
theorem empty_password_like_absent (argv : List PyStr) (env : PyStr → Option PyStr)
    (w : MainWorld) :
    ((argv[1]? = some [] ∨
        (argv.length ≤ 1 ∧
          (env "SSH_PASSWORD".toList = none ∨ env "SSH_PASSWORD".toList = some []))) →
      main argv env w = (1, [])) ∧
    (get_password argv env ≠ [] →
      Event.connect SERVER_IP SERVER_USER ∈ (main argv env w).2) := by
  constructor
  · intro h
    have hpw : get_password argv env = [] := by
      unfold get_password
      rcases h with h | ⟨hlen, h⟩
      · rcases List.getElem?_eq_some_iff.1 h with ⟨hlt, hget⟩
        rw [dif_pos hlt]
        exact hget
      · rw [dif_neg (by omega)]
        rcases h with h | h <;> rw [h] <;> rfl
    simp only [main]
    rw [if_pos hpw]
  · intro hpw
    rw [main_trace_eq argv env w hpw]
    exact tryBody_connect w


/-- A fault-free SFTP oracle, for concrete runs. -/
def allOk : SftpWorld := ⟨fun _ => none, fun _ => none, fun _ _ => none⟩

/-- A small concrete project tree with an excluded directory. -/
def demoTree : List FSEntry :=
  [FSEntry.dir "node_modules".toList [FSEntry.file "deep.txt".toList],
   FSEntry.file "a.txt".toList]

theorem demo_upload_eval :
    upload_directory allOk '/' EXCLUDE_PATTERNS demoTree SERVER_PATH =
      ([Event.statProbe [] SERVER_PATH,
        Event.skip "node_modules".toList,
        Event.uploadAttempt ["a.txt".toList] (SERVER_PATH ++ '/' :: "a.txt".toList),
        Event.putOk ["a.txt".toList] (SERVER_PATH ++ '/' :: "a.txt".toList)], none) := by
  rw [upload_directory_ok allOk '/' EXCLUDE_PATTERNS demoTree SERVER_PATH rfl,
      show demoTree = FSEntry.dir "node_modules".toList [FSEntry.file "deep.txt".toList] ::
        [FSEntry.file "a.txt".toList] from rfl,
      walkItems_excluded allOk '/' EXCLUDE_PATTERNS
        (FSEntry.dir "node_modules".toList [FSEntry.file "deep.txt".toList])
        [FSEntry.file "a.txt".toList] [] SERVER_PATH (by decide),
      walkItems_file_ok allOk '/' EXCLUDE_PATTERNS "a.txt".toList [] [] SERVER_PATH
        (by decide) rfl,
      walkItems_nil]
  rfl

/-- Witness for claim C2 at a concrete run: with `node_modules` excluded, the
upload event recorded for `a.txt` concerns no path at or under `node_modules`. -/
theorem excluded_entry_never_visited_witness :
    ¬ ∃ t, ["node_modules".toList] ++ t = ["a.txt".toList] :=
  excluded_entry_never_visited allOk '/' EXCLUDE_PATTERNS demoTree SERVER_PATH
    ["node_modules".toList] ["a.txt".toList]
    (Event.uploadAttempt ["a.txt".toList] (SERVER_PATH ++ '/' :: "a.txt".toList))
    (by rw [demo_upload_eval]; simp)
    (by rfl) (by simp) (by decide)

/-- Witness for claim C3 at a concrete run: the file uploaded as `a.txt` went
to the remote base followed by its slash-joined relative path. -/
theorem uploaded_file_remote_path_witness :
    SERVER_PATH ++ '/' :: "a.txt".toList =
      SERVER_PATH ++ '/' :: joinChar '/' ["a.txt".toList] :=
  uploaded_file_remote_path allOk '/' EXCLUDE_PATTERNS demoTree SERVER_PATH
    ["a.txt".toList] (SERVER_PATH ++ '/' :: "a.txt".toList)
    (by rw [demo_upload_eval]; simp)

/-- An SFTP oracle whose put call fails exactly on `x.txt`. -/
def putFailsX : SftpWorld :=
  ⟨fun _ => none, fun _ => none,
   fun q _ => if q = ["x.txt".toList] then some (PyExc.ssh "boom".toList) else none⟩

/-- Witness for claim C5 at a concrete run: the put fault on `x.txt` is
reported per-file and the sibling `y.txt` is still attempted and uploaded. -/
theorem file_upload_fault_isolated_witness :
    walkItems putFailsX '/' EXCLUDE_PATTERNS
        (FSEntry.file "x.txt".toList :: [FSEntry.file "y.txt".toList]) [] SERVER_PATH =
      ([Event.uploadAttempt ["x.txt".toList] (SERVER_PATH ++ '/' :: "x.txt".toList),
        Event.uploadError "x.txt".toList,
        Event.uploadAttempt ["y.txt".toList] (SERVER_PATH ++ '/' :: "y.txt".toList),
        Event.putOk ["y.txt".toList] (SERVER_PATH ++ '/' :: "y.txt".toList)], none) := by
  rw [file_upload_fault_isolated putFailsX '/' EXCLUDE_PATTERNS "x.txt".toList
      [FSEntry.file "y.txt".toList] [] SERVER_PATH (PyExc.ssh "boom".toList)
      (by decide) (by decide)]
  rw [walkItems_file_ok putFailsX '/' EXCLUDE_PATTERNS "y.txt".toList [] [] SERVER_PATH
      (by decide) (by decide)]
  rw [walkItems_nil]
  rfl

/-- A fault-free oracle for the whole run. -/
def demoWorld : MainWorld :=
  ⟨none, none, fun _ => Except.ok ([], [], 0), allOk, demoTree, '/'⟩

/-- Witness for claim C6: run with no argument and no environment variable. -/
theorem missing_password_exits_one_witness :
    main ["deploy_helper.py".toList] (fun _ => none) demoWorld = (1, []) :=
  missing_password_exits_one ["deploy_helper.py".toList] (fun _ => none) demoWorld
    (by decide) rfl

/-- An oracle whose docker compose command exits `1` and whose remote mkdir
command exits `2`, with everything else succeeding. -/
def demoWorldDockerFails : MainWorld :=
  ⟨none, none,
   fun c =>
     if c = docker_cmd then Except.ok ([], [], 1)
     else if c = mkdirCmd then Except.ok ([], [], 2)
     else Except.ok ([], [], 0),
   allOk, demoTree, '/'⟩

/-- Witness for claim C7: with the docker command exiting `1` and the mkdir
command exiting `2`, the run still executes the verification listing and exits
`0`. -/
theorem remote_command_failure_not_fatal_witness :
    (main ["deploy_helper.py".toList, "pw".toList] (fun _ => none) demoWorldDockerFails).1 = 0 ∧
    Event.execCmd dockerPsCmd ∈
      (main ["deploy_helper.py".toList, "pw".toList] (fun _ => none) demoWorldDockerFails).2 :=
  remote_command_failure_not_fatal ["deploy_helper.py".toList, "pw".toList] (fun _ => none)
    demoWorldDockerFails ([], [], 2) ([], [], 0) [] [] 1
    (by decide) rfl rfl rfl
    (by show (upload_directory allOk '/' EXCLUDE_PATTERNS demoTree SERVER_PATH).2 = none
        rw [demo_upload_eval]) rfl rfl

/-- An oracle whose connection attempt raises a transport fault. -/
def demoWorldConnFails : MainWorld :=
  ⟨some (PyExc.ssh "down".toList), none, fun _ => Except.ok ([], [], 0), allOk, demoTree, '/'⟩

/-- Witness for claim C8 at a concrete faulting run. -/
theorem teardown_skipped_on_fault_witness :
    ((tryBody demoWorldConnFails).2 = none →
      Event.sftpClose ∈ (main ["deploy_helper.py".toList, "pw".toList] (fun _ => none) demoWorldConnFails).2 ∧
      Event.clientClose ∈ (main ["deploy_helper.py".toList, "pw".toList] (fun _ => none) demoWorldConnFails).2) ∧
    (∀ e, (tryBody demoWorldConnFails).2 = some e →
      (main ["deploy_helper.py".toList, "pw".toList] (fun _ => none) demoWorldConnFails).1 = 1 ∧
      Event.sftpClose ∉ (main ["deploy_helper.py".toList, "pw".toList] (fun _ => none) demoWorldConnFails).2 ∧
      Event.clientClose ∉ (main ["deploy_helper.py".toList, "pw".toList] (fun _ => none) demoWorldConnFails).2) :=
  teardown_skipped_on_fault ["deploy_helper.py".toList, "pw".toList] (fun _ => none)
    demoWorldConnFails (by decide)

end DeployHelper
